import Mathlib

/-!
Shallow embedding of the `baselom_core` Python package: the immutable game
record model (`models.py`), the state validator (`validators.py`), the
pitch-count transition engine (`engine.py`) and the serialization boundary
(`serializer.py`).  Python integers are modelled as `Int`, optional player
identifiers as `Option String`, the `bases` 3-tuple as a triple of
`Option String`, and mappings as association lists.  Functions that raise
Python exceptions are modelled with `Except`.
-/

namespace Baselom

/-- Error kinds raised by the engine: `ValidationError` (InvalidInput) and
`StateError` (IllegalState), from `exceptions.py`. -/
inductive PyError where
  | validationError (msg : String)
  | stateError (msg : String)
deriving DecidableEq, Repr

/-- Score tracking for both teams (`models.Score`). -/
structure Score where
  home : Int
  away : Int
deriving DecidableEq, Repr

/-- Configurable game rules (`models.GameRules`); accepted but not consulted
by the transition logic. -/
structure GameRules where
  designated_hitter : Bool := false
  max_innings : Option Int := some 9
  extra_innings_tiebreaker : Option String := none
deriving DecidableEq, Repr

/-- Immutable game state (`models.GameState`).  `bases` is
(first, second, third); `lineups` is the mapping from team key to lineup,
modelled as an association list. -/
structure GameState where
  inning : Int
  top : Bool
  outs : Int
  bases : Option String × Option String × Option String
  score : Score
  balls : Int := 0
  strikes : Int := 0
  current_batter_id : Option String := none
  current_pitcher_id : Option String := none
  lineups : List (String × List String) := [("home", []), ("away", [])]
deriving DecidableEq, Repr

/-- Result of state validation (`models.ValidationResult`). -/
structure ValidationResult where
  is_valid : Bool
  errors : List String := []
  warnings : List String := []
deriving DecidableEq, Repr

/-- Python `state.lineups.get(team, ())`: association-list lookup with the
empty lineup as default. -/
def lineupsGet (lineups : List (String × List String)) (team : String) : List String :=
  match lineups.lookup team with
  | some l => l
  | none => []

/-- Insert a string into an already sorted list, preserving order. -/
def insertSorted (x : String) : List String → List String
  | [] => [x]
  | y :: ys => if x ≤ y then x :: y :: ys else y :: insertSorted x ys

/-- Lexicographic insertion sort on strings, modelling Python `sorted`. -/
def sortStrings : List String → List String
  | [] => []
  | x :: xs => insertSorted x (sortStrings xs)

/-- Distinct players occurring more than once in a lineup.  Models the
seen/duplicates set accumulation loop in `validate_state` (the loop computes
exactly the set of players whose occurrence count exceeds one). -/
def distinctDuplicates (lineup : List String) : List String :=
  lineup.dedup.filter fun p => decide (1 < lineup.count p)

/-- Loop over base slots accumulating, per occupied slot whose runner was
already seen, the duplicate-runner error message (`validate_state`). -/
def baseDupScan : List (Option String) → List String → List String
  | [], _ => []
  | none :: rest, seen => baseDupScan rest seen
  | some r :: rest, seen =>
    if r ∈ seen then
      ("duplicate runner \x27" ++ r ++ "\x27 found on multiple bases") :: baseDupScan rest seen
    else
      baseDupScan rest (seen ++ [r])

/-- Range-check error for `outs` (`validators.validate_state`, check 1). -/
def outsErrors (s : GameState) : List String :=
  if s.outs < 0 ∨ 2 < s.outs then
    ["outs must be in range [0, 2], got " ++ toString s.outs]
  else []

/-- Range-check error for `balls`. -/
def ballsErrors (s : GameState) : List String :=
  if s.balls < 0 ∨ 3 < s.balls then
    ["balls must be in range [0, 3], got " ++ toString s.balls]
  else []

/-- Range-check error for `strikes`. -/
def strikesErrors (s : GameState) : List String :=
  if s.strikes < 0 ∨ 2 < s.strikes then
    ["strikes must be in range [0, 2], got " ++ toString s.strikes]
  else []

/-- Range-check error for `inning`. -/
def inningErrors (s : GameState) : List String :=
  if s.inning < 1 then
    ["inning must be >= 1, got " ++ toString s.inning]
  else []

/-- Non-negativity check for the score; the message renders the Python dict
literal of both components. -/
def scoreErrors (s : GameState) : List String :=
  if s.score.home < 0 ∨ s.score.away < 0 then
    ["scores must be non-negative, got \x7b\x27home\x27: " ++ toString s.score.home ++
      ", \x27away\x27: " ++ toString s.score.away ++ "\x7d"]
  else []

/-- Per-team lineup checks of `validate_state`: the size check followed by
one error per distinct duplicate player, sorted lexicographically. -/
def lineupErrors (s : GameState) (team : String) : List String :=
  let lineup := lineupsGet s.lineups team
  (if lineup.length ≠ 9 then
    ["lineup must contain exactly 9 players, got " ++ toString lineup.length ++ " for " ++ team]
   else []) ++
  (sortStrings (distinctDuplicates lineup)).map
    (fun d => "duplicate player \x27" ++ d ++ "\x27 in " ++ team ++ " lineup")

/-- The three base slots of a state as a list, in first-second-third order. -/
def basesList (s : GameState) : List (Option String) :=
  [s.bases.1, s.bases.2.1, s.bases.2.2]

/-- State validator (`validators.validate_state`): runs every check,
accumulates all error messages in declaration order, never fails, and sets
`is_valid` exactly when no error accumulated.  Warnings are never produced. -/
def validate_state (s : GameState) : ValidationResult :=
  let errors :=
    outsErrors s ++ ballsErrors s ++ strikesErrors s ++ inningErrors s ++
    scoreErrors s ++ lineupErrors s "home" ++ lineupErrors s "away" ++
    baseDupScan (basesList s) []
  { is_valid := errors.isEmpty, errors := errors, warnings := [] }

/-- The recognized pitch outcome labels (`engine.VALID_PITCH_RESULTS`). -/
def VALID_PITCH_RESULTS : List String :=
  ["ball", "strike_called", "strike_swinging", "foul", "foul_tip"]

/-- Event record returned alongside the new state by `apply_pitch`; carries
the event label and the resulting counters. -/
structure PitchEvent where
  event_type : String
  balls : Int
  strikes : Int
  outs : Int
deriving DecidableEq, Repr

/-- Out-recording routine (`engine._record_out`): increments `outs`, resets
the count, and on the third out clears the bases and flips the half-inning,
incrementing `inning` when the bottom half ends. -/
def record_out (state : GameState) (event_type : String) : GameState × String :=
  let outs := state.outs + 1
  if 3 ≤ outs then
    ({ state with outs := 0, balls := 0, strikes := 0,
                  bases := (none, none, none),
                  top := !state.top,
                  inning := if state.top then state.inning else state.inning + 1 },
     event_type)
  else
    ({ state with outs := outs, balls := 0, strikes := 0 }, event_type)

/-- Walk routine (`engine._process_walk`): shifts `bases[2] := bases[1]`,
`bases[1] := bases[0]`, `bases[0] := batter`, scores one run for the batting
team when third base was occupied, and resets the count. -/
def process_walk (state : GameState) : GameState :=
  let runs_scored : Int := if state.bases.2.2.isSome then 1 else 0
  let bases := (state.current_batter_id, state.bases.1, state.bases.2.1)
  let score :=
    if runs_scored ≠ 0 then
      if state.top then
        { home := state.score.home, away := state.score.away + runs_scored }
      else
        { home := state.score.home + runs_scored, away := state.score.away }
    else state.score
  { state with bases := bases, balls := 0, strikes := 0, score := score }

/-- Pitch transition engine (`engine.apply_pitch`): rejects unrecognized
labels, re-validates the state (failing with the first validation message),
rejects `outs > 2`, then applies the count state machine and returns the new
state together with the event record. -/
def apply_pitch (state : GameState) (pitch_result : String) (rules : GameRules) :
    Except PyError (GameState × PitchEvent) :=
  if pitch_result ∈ VALID_PITCH_RESULTS then
    let validation := validate_state state
    if validation.is_valid then
      if 2 < state.outs then
        Except.error (.stateError "cannot apply pitch when half-inning is already complete")
      else
        let result : GameState × String :=
          if pitch_result = "ball" then
            if state.balls < 3 then
              ({ state with balls := state.balls + 1 }, pitch_result)
            else
              (process_walk state, "walk")
          else if pitch_result = "foul" then
            if state.strikes < 2 then
              ({ state with strikes := state.strikes + 1 }, pitch_result)
            else
              (state, pitch_result)
          else if pitch_result = "foul_tip" then
            if 2 ≤ state.strikes then
              record_out state "strikeout_swinging"
            else
              ({ state with strikes := state.strikes + 1 }, pitch_result)
          else
            if state.strikes < 2 then
              ({ state with strikes := state.strikes + 1 }, pitch_result)
            else
              record_out state
                ("strikeout_" ++ (if pitch_result = "strike_called" then "looking" else "swinging"))
        Except.ok (result.1,
          { event_type := result.2, balls := result.1.balls,
            strikes := result.1.strikes, outs := result.1.outs })
    else
      Except.error (.validationError (validation.errors.headD ""))
  else
    Except.error (.validationError ("invalid pitch_result \x27" ++ pitch_result ++ "\x27"))

/-- Per-lineup bootstrap check (`engine._validate_lineup`): the size check,
then the duplicate check reporting the lexicographically smallest duplicate. -/
def validate_lineup (team : String) (lineup : List String) : Option String :=
  if lineup.length ≠ 9 then
    some (team ++ "_lineup must contain exactly 9 players, got " ++ toString lineup.length)
  else
    match sortStrings (distinctDuplicates lineup) with
    | [] => none
    | d :: _ => some (team ++ "_lineup contains duplicate player \x27" ++ d ++ "\x27")

/-- Bootstrap (`engine.initial_game_state`): validates both lineups, then
builds the inning-1, top-half, zero-count state with the first away batter
up and the first home pitcher on the mound. -/
def initial_game_state (home_lineup away_lineup : List String) (rules : GameRules) :
    Except PyError GameState :=
  match validate_lineup "home" home_lineup with
  | some msg => Except.error (.validationError msg)
  | none =>
    match validate_lineup "away" away_lineup with
    | some msg => Except.error (.validationError msg)
    | none =>
      Except.ok
        { inning := 1, top := true, outs := 0, balls := 0, strikes := 0,
          bases := (none, none, none), score := { home := 0, away := 0 },
          current_batter_id := away_lineup.head?,
          current_pitcher_id := home_lineup.head?,
          lineups := [("home", home_lineup), ("away", away_lineup)] }

/-- Runtime view of a Python sequence passed as a lineup value: its dynamic
tuple-ness and its elements (`models.GameState.__post_init__` checks). -/
structure PySeq where
  isTuple : Bool
  players : List String
deriving DecidableEq, Repr

/-- Runtime view of the Python mapping passed as `lineups`: whether it is a
`MappingProxyType` and its entries. -/
structure PyLineups where
  isMappingProxy : Bool
  entries : List (String × PySeq)
deriving DecidableEq, Repr

/-- Message `models.LINEUPS_IMMUTABLE_ERROR`. -/
def LINEUPS_IMMUTABLE_ERROR : String :=
  "lineups must be an immutable mapping (MappingProxyType)"

/-- Message `models.LINEUPS_TUPLE_ERROR`. -/
def LINEUPS_TUPLE_ERROR : String :=
  "lineups must contain tuples for each team"

/-- Construction-time lineup check (`models.GameState.__post_init__`):
rejects a non-`MappingProxyType` mapping, then rejects any non-tuple value;
returns the `TypeError` message when one is raised. -/
def post_init_check (lineups : PyLineups) : Option String :=
  if ¬ lineups.isMappingProxy then some LINEUPS_IMMUTABLE_ERROR
  else if ¬ (lineups.entries.all fun e => e.2.isTuple) then some LINEUPS_TUPLE_ERROR
  else none

/-- Construction of a `GameState` through the dataclass constructor: runs
`__post_init__` on the supplied lineups object and stores its entries on
success. -/
def mkGameState (inning : Int) (top : Bool) (outs : Int)
    (bases : Option String × Option String × Option String) (score : Score)
    (balls strikes : Int) (batter pitcher : Option String)
    (lineups : PyLineups) : Except String GameState :=
  match post_init_check lineups with
  | some msg => Except.error msg
  | none =>
    Except.ok
      { inning := inning, top := top, outs := outs, bases := bases, score := score,
        balls := balls, strikes := strikes, current_batter_id := batter,
        current_pitcher_id := pitcher,
        lineups := lineups.entries.map fun e => (e.1, e.2.players) }

/-- Whether an `Except` value is a success. -/
def isOkB {ε α : Type} : Except ε α → Bool
  | Except.ok _ => true
  | Except.error _ => false

/-- The flat record produced by `serializer._state_to_dict` (the JSON text
produced by `serialize_state` is `json.dumps` of exactly this record, and
`json.loads` recovers it losslessly; the textual encoding is external). -/
structure StateDict where
  inning : Int
  top : Bool
  outs : Int
  bases : List (Option String)
  score_home : Int
  score_away : Int
  current_batter_id : Option String
  current_pitcher_id : Option String
deriving DecidableEq, Repr

/-- Serialization (`serializer.serialize_state` at the record level):
projects the covered fields, with `bases` as a 3-element list. -/
def serialize_state (s : GameState) : StateDict :=
  { inning := s.inning, top := s.top, outs := s.outs,
    bases := [s.bases.1, s.bases.2.1, s.bases.2.2],
    score_home := s.score.home, score_away := s.score.away,
    current_batter_id := s.current_batter_id,
    current_pitcher_id := s.current_pitcher_id }

/-- Deserialization (`serializer.deserialize_state` at the record level):
rebuilds a `GameState` with default count and lineups; `none` models the
failure of `tuple(data["bases"])` to fit the 3-slot field. -/
def deserialize_state (d : StateDict) : Option GameState :=
  match d.bases with
  | [b1, b2, b3] =>
    some { inning := d.inning, top := d.top, outs := d.outs, bases := (b1, b2, b3),
           score := { home := d.score_home, away := d.score_away },
           current_batter_id := d.current_batter_id,
           current_pitcher_id := d.current_pitcher_id,
           balls := 0, strikes := 0, lineups := [("home", []), ("away", [])] }
  | _ => none

/-- Indicator used to count one violation per failed validation check. -/
def boolCount (b : Prop) [Decidable b] : Nat := if b then 1 else 0

/-- Number of independent violations of a state, one per violated range
check plus one per distinct duplicate lineup player and one per extra base
slot occupied by an already-seen runner. -/
def violation_count (s : GameState) : Nat :=
  boolCount (s.outs < 0 ∨ 2 < s.outs) + boolCount (s.balls < 0 ∨ 3 < s.balls) +
  boolCount (s.strikes < 0 ∨ 2 < s.strikes) + boolCount (s.inning < 1) +
  boolCount (s.score.home < 0 ∨ s.score.away < 0) +
  (boolCount ((lineupsGet s.lineups "home").length ≠ 9) +
    (distinctDuplicates (lineupsGet s.lineups "home")).length) +
  (boolCount ((lineupsGet s.lineups "away").length ≠ 9) +
    (distinctDuplicates (lineupsGet s.lineups "away")).length) +
  (baseDupScan (basesList s) []).length

/-- A valid nine-player home lineup used as a concrete fixture. -/
def homeRoster : List String := ["h1", "h2", "h3", "h4", "h5", "h6", "h7", "h8", "h9"]

/-- A valid nine-player away lineup used as a concrete fixture. -/
def awayRoster : List String := ["a1", "a2", "a3", "a4", "a5", "a6", "a7", "a8", "a9"]

/-- A concrete valid game state: top of the first inning, empty count and
bases, first away batter up. -/
def sampleState : GameState :=
  { inning := 1, top := true, outs := 0, bases := (none, none, none),
    score := { home := 0, away := 0 }, balls := 0, strikes := 0,
    current_batter_id := some "a1", current_pitcher_id := some "h1",
    lineups := [("home", homeRoster), ("away", awayRoster)] }

/-- Valid state with a full count of balls and a runner on second base only:
first base is open behind the runner, so the runner is not forced on a walk. -/
def walkCexState : GameState :=
  { sampleState with balls := 3, bases := (none, some "a2", none) }

/-- State whose `outs` field exceeds 2 (half-inning already complete). -/
def overflowOutsState : GameState := { sampleState with outs := 3 }

/-- Valid state one strike and one out away from ending the half-inning. -/
def rolloverState : GameState := { sampleState with outs := 2, strikes := 2 }

/-- Valid state with two strikes, about to receive a foul. -/
def foulTwoStrikesState : GameState := { sampleState with strikes := 2 }

/-- An immutable empty lineups mapping: a `MappingProxyType` with no entries
at all, in particular no home or away team. -/
def emptyProxyLineups : PyLineups := { isMappingProxy := true, entries := [] }

theorem insertSorted_length (x : String) (l : List String) :
    (insertSorted x l).length = l.length + 1 := by
  induction l with
  | nil => rfl
  | cons y ys ih =>
    simp only [insertSorted]
    split
    · simp
    · simp [ih]

theorem sortStrings_length (l : List String) : (sortStrings l).length = l.length := by
  induction l with
  | nil => rfl
  | cons x xs ih => simp [sortStrings, insertSorted_length, ih]

theorem valid_outs {s : GameState} (h : (validate_state s).is_valid = true) :
    ¬ 2 < s.outs := by
  intro hgt
  have h' : (validate_state s).errors = [] := by
    simpa [validate_state, List.isEmpty_iff] using h
  simp [validate_state, outsErrors, hgt] at h'

theorem record_out_ids (s : GameState) (e : String) :
    ((record_out s e).1).current_batter_id = s.current_batter_id ∧
    ((record_out s e).1).current_pitcher_id = s.current_pitcher_id ∧
    ((record_out s e).1).lineups = s.lineups := by
  simp only [record_out]
  split <;> exact ⟨rfl, rfl, rfl⟩

theorem apply_pitch_ok_ids (s : GameState) (label : String) (rules : GameRules)
    (s' : GameState) (ev : PitchEvent)
    (h : apply_pitch s label rules = Except.ok (s', ev)) :
    s'.current_batter_id = s.current_batter_id ∧
    s'.current_pitcher_id = s.current_pitcher_id ∧ s'.lineups = s.lineups := by
  simp only [apply_pitch] at h
  split at h
  · split at h
    · split at h
      · simp at h
      · rw [Except.ok.injEq, Prod.mk.injEq] at h
        obtain ⟨h1, h2⟩ := h
        subst h1
        split
        · split
          · exact ⟨rfl, rfl, rfl⟩
          · simp [process_walk]
        · split
          · split
            · exact ⟨rfl, rfl, rfl⟩
            · exact ⟨rfl, rfl, rfl⟩
          · split
            · split
              · exact record_out_ids s _
              · exact ⟨rfl, rfl, rfl⟩
            · split
              · exact ⟨rfl, rfl, rfl⟩
              · exact record_out_ids s _
    · simp at h
  · simp at h

theorem validate_lineup_none {lineup : List String} (team : String)
    (h9 : lineup.length = 9) (hnd : lineup.Nodup) : validate_lineup team lineup = none := by
  have hdup : distinctDuplicates lineup = [] := by
    simp only [distinctDuplicates, List.filter_eq_nil_iff]
    intro a ha
    have hc := List.nodup_iff_count_le_one.mp hnd a
    simp only [decide_eq_true_eq]
    omega
  simp [validate_lineup, h9, hdup, sortStrings]

/-- C1 (counterexample): the claim predicts that on a walk a runner with an
open base behind them stays put.  In `walkCexState` the only runner is on
second base and first base is open, so the claim predicts the runner stays
on second; `_process_walk` nevertheless moves that runner to third base. -/
theorem walk_unforced_runner_advances :
    walkCexState.bases = (none, some "a2", none) ∧
    apply_pitch walkCexState "ball" {} = Except.ok
      ({ walkCexState with bases := (some "a1", none, some "a2"), balls := 0, strikes := 0 },
       { event_type := "walk", balls := 0, strikes := 0, outs := 0 }) :=
  ⟨rfl, by rfl⟩

/-- C1 (amended): on ball four, for every valid state and every base
occupancy, the walk moves the batter to first and shifts every runner one
base forward unconditionally (second to third, first to second, third
scores), crediting the batting team with exactly one run iff third base was
occupied; the count resets and all other fields are unchanged. -/
theorem walk_shift_characterization (s : GameState) (rules : GameRules)
    (hv : (validate_state s).is_valid = true) (hb : s.balls = 3) :
    ∃ s' ev, apply_pitch s "ball" rules = Except.ok (s', ev) ∧
      s'.bases = (s.current_batter_id, s.bases.1, s.bases.2.1) ∧
      s'.score = (if s.bases.2.2.isSome then
                    (if s.top then { home := s.score.home, away := s.score.away + 1 }
                     else { home := s.score.home + 1, away := s.score.away })
                  else s.score) ∧
      s'.balls = 0 ∧ s'.strikes = 0 ∧
      s'.outs = s.outs ∧ s'.top = s.top ∧ s'.inning = s.inning ∧
      s'.current_batter_id = s.current_batter_id ∧
      ev.event_type = "walk" ∧ ev.balls = 0 ∧ ev.strikes = 0 ∧ ev.outs = s.outs := by
  have ho := valid_outs hv
  have hm : ("ball" : String) ∈ VALID_PITCH_RESULTS := by decide
  refine ⟨process_walk s, { event_type := "walk", balls := 0, strikes := 0, outs := s.outs },
    ?_, ?_, ?_, rfl, rfl, rfl, rfl, rfl, rfl, rfl, rfl, rfl, rfl⟩
  · simp [apply_pitch, hm, hv, ho, hb, process_walk]
  · simp [process_walk]
  · cases h3 : s.bases.2.2 <;> simp [process_walk, h3]

/-- C1 (witness): the amended walk characterization applied to the concrete
state with a lone runner on second base. -/
theorem walk_shift_characterization_witness :
    (validate_state walkCexState).is_valid = true ∧ walkCexState.balls = 3 ∧
    (∃ s' ev, apply_pitch walkCexState "ball" {} = Except.ok (s', ev) ∧
      s'.bases = (walkCexState.current_batter_id, walkCexState.bases.1, walkCexState.bases.2.1) ∧
      s'.score = (if walkCexState.bases.2.2.isSome then
                    (if walkCexState.top then
                      { home := walkCexState.score.home, away := walkCexState.score.away + 1 }
                     else
                      { home := walkCexState.score.home + 1, away := walkCexState.score.away })
                  else walkCexState.score) ∧
      s'.balls = 0 ∧ s'.strikes = 0 ∧
      s'.outs = walkCexState.outs ∧ s'.top = walkCexState.top ∧
      s'.inning = walkCexState.inning ∧
      s'.current_batter_id = walkCexState.current_batter_id ∧
      ev.event_type = "walk" ∧ ev.balls = 0 ∧ ev.strikes = 0 ∧
      ev.outs = walkCexState.outs) :=
  ⟨by decide, by decide, walk_shift_characterization walkCexState {} (by decide) (by decide)⟩

/-- C2 (counterexample): on a state with `outs == 3` and the recognized
label `ball`, `apply_pitch` fails with a `ValidationError` (InvalidInput),
not with a `StateError` (IllegalState) as the claim asserts: state
validation runs before the `outs > 2` check and already rejects the state. -/
theorem outs_overflow_not_state_error :
    apply_pitch overflowOutsState "ball" {} =
      Except.error (PyError.validationError "outs must be in range [0, 2], got 3") := by
  rfl

/-- C2 (amended): for every state with `outs > 2` and every recognized
pitch label, `apply_pitch` fails with an InvalidInput (`ValidationError`)
carrying the outs-range validation message; the IllegalState branch is
unreachable for such states. -/
theorem outs_overflow_validation_error (s : GameState) (label : String) (rules : GameRules)
    (hm : label ∈ VALID_PITCH_RESULTS) (ho : 2 < s.outs) :
    apply_pitch s label rules =
      Except.error (.validationError
        ("outs must be in range [0, 2], got " ++ toString s.outs)) := by
  simp [apply_pitch, hm, validate_state, outsErrors, ho, ho.not_lt]

/-- C2 (witness): the amended overflow behaviour at the concrete state with
three outs and the pitch label `ball`. -/
theorem outs_overflow_validation_error_witness :
    ("ball" ∈ VALID_PITCH_RESULTS) ∧ (2 < overflowOutsState.outs) ∧
    apply_pitch overflowOutsState "ball" {} =
      Except.error (.validationError
        ("outs must be in range [0, 2], got " ++ toString overflowOutsState.outs)) :=
  ⟨by decide, by decide,
    outs_overflow_validation_error overflowOutsState "ball" {} (by decide) (by decide)⟩

/-- C3: every pitch that records the third out of a valid state (two outs
and two strikes before a strikeout pitch) yields a state with zero outs,
empty bases, a reset count, and the half-inning flipped: the top half
becomes the bottom of the same inning, the bottom half becomes the top of
the next inning. -/
theorem third_out_rollover (s : GameState) (label : String) (rules : GameRules)
    (hv : (validate_state s).is_valid = true) (ho2 : s.outs = 2) (hs : s.strikes = 2)
    (hm : label ∈ ["strike_called", "strike_swinging", "foul_tip"]) :
    ∃ s' ev, apply_pitch s label rules = Except.ok (s', ev) ∧
      s'.outs = 0 ∧ s'.bases = (none, none, none) ∧ s'.balls = 0 ∧ s'.strikes = 0 ∧
      s'.top = !s.top ∧ s'.inning = (if s.top then s.inning else s.inning + 1) := by
  have ho := valid_outs hv
  have hns : ¬ s.strikes < 2 := by omega
  have hle : (3 : Int) ≤ s.outs + 1 := by omega
  simp only [List.mem_cons, List.not_mem_nil, or_false] at hm
  rcases hm with rfl | rfl | rfl
  · have hmv : ("strike_called" : String) ∈ VALID_PITCH_RESULTS := by decide
    exact ⟨(record_out s "strikeout_looking").1,
      { event_type := "strikeout_looking", balls := 0, strikes := 0, outs := 0 },
      by simp [apply_pitch, hmv, hv, ho, hns, record_out, hle],
      by simp [record_out, hle], by simp [record_out, hle], by simp [record_out, hle],
      by simp [record_out, hle], by simp [record_out, hle], by simp [record_out, hle]⟩
  · have hmv : ("strike_swinging" : String) ∈ VALID_PITCH_RESULTS := by decide
    exact ⟨(record_out s "strikeout_swinging").1,
      { event_type := "strikeout_swinging", balls := 0, strikes := 0, outs := 0 },
      by simp [apply_pitch, hmv, hv, ho, hns, record_out, hle],
      by simp [record_out, hle], by simp [record_out, hle], by simp [record_out, hle],
      by simp [record_out, hle], by simp [record_out, hle], by simp [record_out, hle]⟩
  · have hmv : ("foul_tip" : String) ∈ VALID_PITCH_RESULTS := by decide
    have hge : (2 : Int) ≤ s.strikes := by omega
    exact ⟨(record_out s "strikeout_swinging").1,
      { event_type := "strikeout_swinging", balls := 0, strikes := 0, outs := 0 },
      by simp [apply_pitch, hmv, hv, ho, hge, record_out, hle],
      by simp [record_out, hle], by simp [record_out, hle], by simp [record_out, hle],
      by simp [record_out, hle], by simp [record_out, hle], by simp [record_out, hle]⟩

/-- C3 (witness): the rollover applied to the concrete valid state with two
outs and two strikes receiving a called third strike. -/
theorem third_out_rollover_witness :
    (validate_state rolloverState).is_valid = true ∧ rolloverState.outs = 2 ∧
    rolloverState.strikes = 2 ∧
    ("strike_called" ∈ ["strike_called", "strike_swinging", "foul_tip"]) ∧
    (∃ s' ev, apply_pitch rolloverState "strike_called" {} = Except.ok (s', ev) ∧
      s'.outs = 0 ∧ s'.bases = (none, none, none) ∧ s'.balls = 0 ∧ s'.strikes = 0 ∧
      s'.top = !rolloverState.top ∧
      s'.inning = (if rolloverState.top then rolloverState.inning
                   else rolloverState.inning + 1)) :=
  ⟨by decide, by decide, by decide, by decide,
    third_out_rollover rolloverState "strike_called" {}
      (by decide) (by decide) (by decide) (by decide)⟩

/-- C4: `validate_state` is total (it always returns a result, modelled by
it being a Lean function), reports exactly one error message per
independent violation with no short-circuiting, produces no warnings, and
`is_valid` holds exactly when the error list is empty. -/
theorem validate_state_totality (s : GameState) :
    (validate_state s).errors.length = violation_count s ∧
    ((validate_state s).is_valid = true ↔ (validate_state s).errors = []) ∧
    (validate_state s).warnings = [] := by
  refine ⟨?_, ?_, rfl⟩
  · simp only [validate_state, violation_count, outsErrors, ballsErrors, strikesErrors,
      inningErrors, scoreErrors, lineupErrors, boolCount, List.length_append,
      apply_ite List.length, List.length_singleton, List.length_nil, List.length_map,
      sortStrings_length]
  · simp [validate_state, List.isEmpty_iff]

/-- C5 (counterexample): the claim asserts that construction fails for
every lineups argument that does not contain entries for both teams; yet an
immutable mapping with no entries at all passes `__post_init__` and
construction succeeds. -/
theorem mkGameState_accepts_missing_teams :
    mkGameState 1 true 0 (none, none, none) { home := 0, away := 0 } 0 0 none none
      emptyProxyLineups =
      Except.ok { inning := 1, top := true, outs := 0, bases := (none, none, none),
                  score := { home := 0, away := 0 }, balls := 0, strikes := 0,
                  current_batter_id := none, current_pitcher_id := none,
                  lineups := [] } := by
  rfl

/-- C5 (amended): construction of a `GameState` succeeds exactly when the
lineups argument is an immutable `MappingProxyType` whose values are all
tuples; presence of home and away entries is not checked at construction. -/
theorem mkGameState_success_iff (inning : Int) (top : Bool) (outs : Int)
    (bases : Option String × Option String × Option String) (score : Score)
    (balls strikes : Int) (batter pitcher : Option String) (lineups : PyLineups) :
    isOkB (mkGameState inning top outs bases score balls strikes batter pitcher lineups) =
      (lineups.isMappingProxy && lineups.entries.all fun e => e.2.isTuple) := by
  cases h1 : lineups.isMappingProxy <;>
    cases h2 : lineups.entries.all fun e => e.2.isTuple <;>
      simp [mkGameState, post_init_check, isOkB, h1, h2]

/-- C6: for every pair of valid nine-player duplicate-free lineups,
`initial_game_state` returns the inning-1 top-half state with empty count,
bases and score, the first away player batting, the first home player
pitching, and both lineups stored. -/
theorem initial_game_state_spec (home_lineup away_lineup : List String) (rules : GameRules)
    (hh9 : home_lineup.length = 9) (hhn : home_lineup.Nodup)
    (ha9 : away_lineup.length = 9) (han : away_lineup.Nodup) :
    initial_game_state home_lineup away_lineup rules = Except.ok
      { inning := 1, top := true, outs := 0, balls := 0, strikes := 0,
        bases := (none, none, none), score := { home := 0, away := 0 },
        current_batter_id := away_lineup.head?, current_pitcher_id := home_lineup.head?,
        lineups := [("home", home_lineup), ("away", away_lineup)] } := by
  simp [initial_game_state, validate_lineup_none "home" hh9 hhn,
    validate_lineup_none "away" ha9 han]

/-- C6 (witness): the bootstrap applied to the two concrete rosters. -/
theorem initial_game_state_spec_witness :
    homeRoster.length = 9 ∧ homeRoster.Nodup ∧ awayRoster.length = 9 ∧ awayRoster.Nodup ∧
    initial_game_state homeRoster awayRoster {} = Except.ok
      { inning := 1, top := true, outs := 0, balls := 0, strikes := 0,
        bases := (none, none, none), score := { home := 0, away := 0 },
        current_batter_id := awayRoster.head?, current_pitcher_id := homeRoster.head?,
        lineups := [("home", homeRoster), ("away", awayRoster)] } :=
  ⟨by decide, by decide, by decide, by decide,
    initial_game_state_spec homeRoster awayRoster {}
      (by decide) (by decide) (by decide) (by decide)⟩

/-- C7: a foul with two strikes on a valid state changes nothing: the
returned state equals the input state in every field and the event label
is `foul` with the unchanged counters. -/
theorem foul_with_two_strikes_is_noop (s : GameState) (rules : GameRules)
    (hv : (validate_state s).is_valid = true) (hs : s.strikes = 2) :
    apply_pitch s "foul" rules =
      Except.ok (s, { event_type := "foul", balls := s.balls,
                      strikes := s.strikes, outs := s.outs }) := by
  have ho := valid_outs hv
  have hm : ("foul" : String) ∈ VALID_PITCH_RESULTS := by decide
  have h1 : ¬ (("foul" : String) = "ball") := by decide
  simp [apply_pitch, hm, hv, ho, h1, hs]

/-- C7 (witness): the no-op foul at the concrete two-strike state. -/
theorem foul_with_two_strikes_is_noop_witness :
    (validate_state foulTwoStrikesState).is_valid = true ∧
    foulTwoStrikesState.strikes = 2 ∧
    apply_pitch foulTwoStrikesState "foul" {} =
      Except.ok (foulTwoStrikesState,
        { event_type := "foul", balls := foulTwoStrikesState.balls,
          strikes := foulTwoStrikesState.strikes, outs := foulTwoStrikesState.outs }) :=
  ⟨by decide, by decide,
    foul_with_two_strikes_is_noop foulTwoStrikesState {} (by decide) (by decide)⟩

/-- C8: serializing then deserializing any valid state recovers a state
equal in every field the schema carries: inning, half, outs, bases, both
score components, batter and pitcher identifiers. -/
theorem serialize_deserialize_round_trip (s : GameState)
    (hv : (validate_state s).is_valid = true) :
    ∃ s', deserialize_state (serialize_state s) = some s' ∧
      s'.inning = s.inning ∧ s'.top = s.top ∧ s'.outs = s.outs ∧ s'.bases = s.bases ∧
      s'.score = s.score ∧ s'.current_batter_id = s.current_batter_id ∧
      s'.current_pitcher_id = s.current_pitcher_id :=
  ⟨_, rfl, rfl, rfl, rfl, rfl, rfl, rfl, rfl⟩

/-- C8 (witness): the round trip at the concrete valid sample state. -/
theorem serialize_deserialize_round_trip_witness :
    (validate_state sampleState).is_valid = true ∧
    (∃ s', deserialize_state (serialize_state sampleState) = some s' ∧
      s'.inning = sampleState.inning ∧ s'.top = sampleState.top ∧
      s'.outs = sampleState.outs ∧ s'.bases = sampleState.bases ∧
      s'.score = sampleState.score ∧
      s'.current_batter_id = sampleState.current_batter_id ∧
      s'.current_pitcher_id = sampleState.current_pitcher_id) :=
  ⟨by decide, serialize_deserialize_round_trip sampleState (by decide)⟩

/-- C9: every pitch label outside the recognized set makes `apply_pitch`
fail with an InvalidInput (`ValidationError`) whose message cites the
unrecognized label, on any state whatsoever. -/
theorem invalid_pitch_label_rejected (s : GameState) (label : String) (rules : GameRules)
    (hm : label ∉ VALID_PITCH_RESULTS) :
    apply_pitch s label rules =
      Except.error (.validationError ("invalid pitch_result \x27" ++ label ++ "\x27")) := by
  simp [apply_pitch, hm]

/-- C9 (witness): the unrecognized label `homer` rejected on the sample
state. -/
theorem invalid_pitch_label_rejected_witness :
    ("homer" ∉ VALID_PITCH_RESULTS) ∧
    apply_pitch sampleState "homer" {} =
      Except.error (.validationError ("invalid pitch_result \x27" ++ "homer" ++ "\x27")) :=
  ⟨by decide, invalid_pitch_label_rejected sampleState "homer" {} (by decide)⟩

/-- C10: for every valid state and recognized pitch label, `apply_pitch`
succeeds and the successor state keeps the same current batter, current
pitcher, and lineups as the input state (a walk leaves the walked batter as
`current_batter_id`, and a strikeout does not advance the batting order). -/
theorem apply_pitch_preserves_ids (s : GameState) (label : String) (rules : GameRules)
    (hv : (validate_state s).is_valid = true) (hm : label ∈ VALID_PITCH_RESULTS) :
    ∃ s' ev, apply_pitch s label rules = Except.ok (s', ev) ∧
      s'.current_batter_id = s.current_batter_id ∧
      s'.current_pitcher_id = s.current_pitcher_id ∧ s'.lineups = s.lineups := by
  have ho := valid_outs hv
  have hok : ∃ p, apply_pitch s label rules = Except.ok p := by
    simp [apply_pitch, hm, hv, ho]
  obtain ⟨⟨s', ev⟩, hp⟩ := hok
  have hids := apply_pitch_ok_ids s label rules s' ev hp
  exact ⟨s', ev, hp, hids.1, hids.2.1, hids.2.2⟩

/-- C10 (witness): identifier preservation at the concrete sample state
receiving a first ball. -/
theorem apply_pitch_preserves_ids_witness :
    (validate_state sampleState).is_valid = true ∧ ("ball" ∈ VALID_PITCH_RESULTS) ∧
    (∃ s' ev, apply_pitch sampleState "ball" {} = Except.ok (s', ev) ∧
      s'.current_batter_id = sampleState.current_batter_id ∧
      s'.current_pitcher_id = sampleState.current_pitcher_id ∧
      s'.lineups = sampleState.lineups) :=
  ⟨by decide, by decide,
    apply_pitch_preserves_ids sampleState "ball" {} (by decide) (by decide)⟩

end Baselom
